import Mathlib

/-!
Shallow embedding of the travel-buddy place-reconciliation routes
(`src/app/api/trip/init/route.ts`, `src/app/api/trip/resolve/route.ts`,
`src/app/api/trip/create/route.ts`) and proofs about them.

JavaScript string primitives are modelled on `List Char` by structural
recursion so that every definition evaluates inside the kernel:
`a.includes(b)` as contiguous-segment containment, `trim` as dropping
whitespace from both ends, `toLowerCase` as `Char.toLower` mapped over the
characters, `split(' ')` as cutting at every single space.
-/

namespace TravelBuddy

/-- Containment of `l₁` as a contiguous segment of `l₂`. -/
def listInfix (l₁ l₂ : List Char) : Bool :=
  match l₂ with
  | [] => l₁.isEmpty
  | _ :: t => l₁.isPrefixOf l₂ || listInfix l₁ t

/-- JS `a.includes(b)`: `b` occurs as a contiguous substring of `a`. -/
def jsIncludes (a b : String) : Bool := listInfix b.data a.data

/-- Strip whitespace from both ends of a character list (JS `trim`). -/
def trimChars (l : List Char) : List Char :=
  ((l.dropWhile Char.isWhitespace).reverse.dropWhile Char.isWhitespace).reverse

/-- JS `s.toLowerCase().trim()` as used throughout the matching code. -/
def normalize (s : String) : String :=
  String.mk (trimChars (s.data.map Char.toLower))

/-- JS `s.split(' ')`: cut at every single space character; consecutive
spaces produce empty fields. -/
def splitOnSpace (l : List Char) : List (List Char) :=
  match l with
  | [] => [[]]
  | c :: t =>
    if c = ' ' then [] :: splitOnSpace t
    else
      match splitOnSpace t with
      | [] => [[c]]
      | w :: ws => (c :: w) :: ws

/-! ## The fuzzy matcher of `/api/trip/init` (lines 206-250) -/

/-- A nearby place as consumed by the init route's matcher:
`{ name, id, lat, lon }`. -/
structure NearbyPlace where
  name : String
  id : String
  lat : String
  lon : String
deriving Repr, DecidableEq

/-- Strategy 1 (line 210): exact match of normalized names. -/
def exactMatch (normalizedRequested normalizedNearby : String) : Bool :=
  normalizedNearby == normalizedRequested

/-- Strategy 2 (lines 213-214): contains match, either direction. -/
def substringMatch (normalizedRequested normalizedNearby : String) : Bool :=
  jsIncludes normalizedNearby normalizedRequested ||
  jsIncludes normalizedRequested normalizedNearby

/-- The fixed alias table `landmarkMappings` (lines 217-227). -/
def landmarkMappings : List (String × List String) :=
  [ ("colosseum", ["colosseo", "amphitheatrum flavium", "anfiteatro flavio"]),
    ("trevi fountain", ["fontana di trevi", "trevi", "fontana"]),
    ("vatican museums", ["musei vaticani", "vatican", "vaticani", "sistine chapel"]),
    ("sistine chapel", ["cappella sistina", "sistina", "musei vaticani"]),
    ("pantheon", ["pantheon"]),
    ("spanish steps", ["scalinata di trinità dei monti", "trinità dei monti", "spanish"]),
    ("roman forum", ["foro romano", "forum romanum", "forum"]),
    ("st peters basilica", ["basilica di san pietro", "san pietro", "st peter"]),
    ("castel santangelo", ["castel sant\x27angelo", "mausoleum of hadrian", "castello"]) ]

/-- Strategy 3 (lines 230-236): the reference contains a canonical key and
the candidate name contains one of that key's registered aliases. -/
def aliasMatch (normalizedRequested normalizedNearby : String) : Bool :=
  landmarkMappings.any fun entry =>
    jsIncludes normalizedRequested entry.1 &&
    entry.2.any fun variant => jsIncludes normalizedNearby variant

/-- Tokenization `split(' ').filter(word => word.length > 2)` (lines 239-240). -/
def significantWords (s : String) : List String :=
  ((splitOnSpace s.data).map String.mk).filter fun word => word.length > 2

/-- The reference tokens that appear (substring, either direction) in some
candidate token (lines 243-247). -/
def matchingWords (normalizedRequested normalizedNearby : String) : List String :=
  (significantWords normalizedRequested).filter fun reqWord =>
    (significantWords normalizedNearby).any fun nearbyWord =>
      jsIncludes nearbyWord reqWord || jsIncludes reqWord nearbyWord

/-- The threshold `Math.ceil(n * 0.5)` for a natural `n`. -/
def ceilHalf (n : Nat) : Nat := (n + 1) / 2

/-- Strategy 4 (lines 238-249): at least `ceil(n * 0.5)` of the reference's
significant tokens must overlap some candidate token. -/
def tokenOverlapMatch (normalizedRequested normalizedNearby : String) : Bool :=
  (matchingWords normalizedRequested normalizedNearby).length ≥
    ceilHalf (significantWords normalizedRequested).length

/-- The matcher body of `nearbyPlaces.find` (lines 206-250): the four
strategies tried in order on one candidate. -/
def matchesPlace (requestedPlace nearbyName : String) : Bool :=
  let normalizedRequested := normalize requestedPlace
  let normalizedNearby := normalize nearbyName
  exactMatch normalizedRequested normalizedNearby ||
  substringMatch normalizedRequested normalizedNearby ||
  aliasMatch normalizedRequested normalizedNearby ||
  tokenOverlapMatch normalizedRequested normalizedNearby

/-- The search `nearbyPlaces.find(...)` (line 206): first candidate in pool order
satisfying any strategy. -/
def findMatchedPlace (requestedPlace : String) (nearbyPlaces : List NearbyPlace) :
    Option NearbyPlace :=
  nearbyPlaces.find? fun nearby => matchesPlace requestedPlace nearby.name

/-! ## Init-route batch reconciliation and its outcome (lines 199-278) -/

/-- The two accumulators of the init route's matching loop
(`validatedPlaces`, `invalidPlaces`, lines 199-267), in traversal order. -/
structure InitMatchResult where
  validatedPlaces : List NearbyPlace
  invalidPlaces : List String
deriving Repr, DecidableEq

/-- The matching loop (lines 202-267): each requested place is either
pushed to `validatedPlaces` (with the matched candidate's fields) or to
`invalidPlaces`, preserving input order. -/
def reconcile (places : List String) (pool : List NearbyPlace) : InitMatchResult :=
  match places with
  | [] => ⟨[], []⟩
  | p :: rest =>
    let r := reconcile rest pool
    match findMatchedPlace p pool with
    | some m => ⟨m :: r.validatedPlaces, r.invalidPlaces⟩
    | none => ⟨r.validatedPlaces, p :: r.invalidPlaces⟩

/-- Outcome of the init route after matching. -/
inductive InitOutcome where
  | error (status : Nat) (message : String)
  | success (validatedPlaces : List NearbyPlace) (invalidPlaces : List String)
deriving Repr, DecidableEq

/-- Lines 269-283: an empty `validatedPlaces` aborts with a 404; otherwise
the partial result (valid places plus the invalid-place warnings) is kept. -/
def initMatchOutcome (places : List String) (pool : List NearbyPlace) : InitOutcome :=
  let r := reconcile places pool
  if r.validatedPlaces.isEmpty then
    .error 404 "None of the requested places were found near the destination"
  else
    .success r.validatedPlaces r.invalidPlaces

/-! ## Coordinate resolution of `/api/trip/resolve` (lines 57-169, 171-307) -/

/-- A candidate from the nearby search as consumed by `resolveCoordinates`:
`{ name, lat, lon, id, address, type }`. -/
structure ResolveCandidate where
  name : String
  lat : String
  lon : String
  id : String
  address : Option String
  category : Option String
deriving Repr, DecidableEq

/-- An autocomplete prediction used by the fallback search (lines 144-158). -/
structure Prediction where
  lat : String
  lon : String
  place_id : String
  category : Option String
deriving Repr, DecidableEq

/-- The coordinate record returned by `resolveCoordinates`. -/
structure Coordinates where
  lat : String
  lon : String
  place_id : Option String
  address : Option String
  category : Option String
deriving Repr, DecidableEq

/-- The helper `resolveCoordinates` (lines 57-169), cache aside: exact match on the
nearby pool, then substring match (either direction, note: no `trim` on the
candidate side here), then the first autocomplete prediction, else `none`. -/
def resolveCoordinates (placeName : String) (nearbyPlaces : List ResolveCandidate)
    (predictions : List Prediction) : Option Coordinates :=
  let normalizedSearchName := normalize placeName
  match nearbyPlaces.find? fun place => normalize place.name == normalizedSearchName with
  | some exact => some ⟨exact.lat, exact.lon, some exact.id, exact.address, exact.category⟩
  | none =>
    match nearbyPlaces.find? fun place =>
        jsIncludes (String.mk (place.name.data.map Char.toLower)) normalizedSearchName ||
        jsIncludes normalizedSearchName (String.mk (place.name.data.map Char.toLower)) with
    | some fuzzy => some ⟨fuzzy.lat, fuzzy.lon, some fuzzy.id, fuzzy.address, fuzzy.category⟩
    | none =>
      match predictions with
      | bestMatch :: _ => some ⟨bestMatch.lat, bestMatch.lon, some bestMatch.place_id,
          none, bestMatch.category⟩
      | [] => none

/-- A place of the input itinerary: `{ name, time }`. -/
structure ItinPlace where
  name : String
  time : String
deriving Repr, DecidableEq

/-- A day of the input itinerary. -/
structure ItinDay where
  day : Int
  places : List ItinPlace
deriving Repr, DecidableEq

/-- The input of `/api/trip/resolve`. -/
structure TripItinerary where
  destination : String
  days : Int
  budget : String
  itinerary : List ItinDay
deriving Repr, DecidableEq

/-- An enriched place of the output itinerary (lines 19-27). -/
structure EnrichedPlace where
  name : String
  time : String
  lat : String
  lon : String
  place_id : Option String
  address : Option String
  category : Option String
deriving Repr, DecidableEq

/-- A day of the enriched output. -/
structure EnrichedDay where
  day : Int
  places : List EnrichedPlace
deriving Repr, DecidableEq

/-- The resolution statistics of the output (lines 37-42), elapsed time
omitted. -/
structure ResolutionInfo where
  total_places : Nat
  resolved_places : Nat
  unresolved_places : List String
deriving Repr, DecidableEq

/-- The enriched output of `/api/trip/resolve`. -/
structure EnrichedItinerary where
  destination : String
  days : Int
  budget : String
  itinerary : List EnrichedDay
  resolution_info : ResolutionInfo
deriving Repr, DecidableEq

/-- The per-request resolution environment: one nearby pool (the nearby
request parameters depend only on the destination) and per-query
autocomplete predictions. -/
structure ResolveEnv where
  pool : List ResolveCandidate
  predictionsFor : String → List Prediction

/-- Resolution of one place name within a request. -/
def resolveOf (env : ResolveEnv) (placeName : String) : Option Coordinates :=
  resolveCoordinates placeName env.pool (env.predictionsFor placeName)

/-- Lines 242-270: a resolved place keeps its name and time and takes the
candidate's coordinates; an unresolved one takes the destination's
coordinates as fallback. -/
def enrichPlace (destinationLat destinationLon : String) (env : ResolveEnv)
    (place : ItinPlace) : EnrichedPlace :=
  match resolveOf env place.name with
  | some c => ⟨place.name, place.time, c.lat, c.lon, c.place_id, c.address, c.category⟩
  | none => ⟨place.name, place.time, destinationLat, destinationLon, none, none, none⟩

/-- All places of the input itinerary in traversal order. -/
def allPlaces (itin : TripItinerary) : List ItinPlace :=
  (itin.itinerary.map ItinDay.places).flatten

/-- The count `totalPlaces` (lines 222-226): sum of the day lengths. -/
def totalPlaces (itin : TripItinerary) : Nat :=
  (itin.itinerary.map fun day => day.places.length).sum

/-- The names pushed to `unresolvedPlaces` (line 262), in traversal order. -/
def unresolvedPlaces (itin : TripItinerary) (env : ResolveEnv) : List String :=
  ((allPlaces itin).filter fun p => (resolveOf env p.name).isNone).map ItinPlace.name

/-- The final value of `resolvedCount` (line 251). -/
def resolvedCount (itin : TripItinerary) (env : ResolveEnv) : Nat :=
  ((allPlaces itin).filter fun p => (resolveOf env p.name).isSome).length

/-- The whole enrichment loop plus response assembly (lines 230-299). -/
def resolveTrip (itin : TripItinerary) (destinationLat destinationLon : String)
    (env : ResolveEnv) : EnrichedItinerary :=
  { destination := itin.destination
    days := itin.days
    budget := itin.budget
    itinerary := itin.itinerary.map fun day =>
      ⟨day.day, day.places.map (enrichPlace destinationLat destinationLon env)⟩
    resolution_info :=
      { total_places := totalPlaces itin
        resolved_places := resolvedCount itin env
        unresolved_places := unresolvedPlaces itin env } }

/-! ## The result caches (init lines 38-40 and 95-100, resolve lines 50-74)

Both caches are JS `Map`s from a string key to `{ data, timestamp }`,
read through a lazy staleness check `Date.now() - timestamp < CACHE_DURATION`
and written through `Map.set` (overwriting any entry under the same key).
Modelled as an association list with `Map.set` update-or-append semantics;
timestamps are `Nat` milliseconds. -/

/-- The `CACHE_DURATION` of the init route: 10 minutes. -/
def CACHE_DURATION_init : Nat := 10 * 60 * 1000

/-- The `CACHE_DURATION` of the resolve route: 30 minutes. -/
def CACHE_DURATION_resolve : Nat := 30 * 60 * 1000

/-- A cache entry: stored value plus its write timestamp. -/
structure CacheEntry (α : Type) where
  data : α
  timestamp : Nat
deriving Repr, DecidableEq

/-- The cache contents: key/entry pairs, first occurrence of a key wins
(JS `Map` keeps one entry per key; `cacheSet` maintains that invariant). -/
def ResultCache (α : Type) : Type := List (String × CacheEntry α)

/-- JS `Map.get` composed with the key test: the entry stored under `key`. -/
def cacheFind {α : Type} (cache : ResultCache α) (key : String) :
    Option (CacheEntry α) :=
  (cache.find? fun e => e.1 == key).map Prod.snd

/-- JS `Map.set` (init line 141, resolve line 109): overwrite the entry under
`key` if present, else append a new one. -/
def cacheSet {α : Type} (cache : ResultCache α) (key : String) (value : α)
    (now : Nat) : ResultCache α :=
  match cache with
  | [] => [(key, ⟨value, now⟩)]
  | e :: rest =>
    if e.1 == key then (key, ⟨value, now⟩) :: rest
    else e :: cacheSet rest key value now

/-- The read path (init lines 95-100, resolve lines 68-74): a hit only when
an entry exists under the key and `now - timestamp < duration`; a stale or
absent entry behaves as a miss. (`Nat` truncated subtraction agrees with the
JS arithmetic whenever `now ≥ timestamp`, and both sides give a hit when
`now < timestamp`.) -/
def cacheGet {α : Type} (cache : ResultCache α) (key : String) (now duration : Nat) :
    Option α :=
  match cacheFind cache key with
  | some entry => if now - entry.timestamp < duration then some entry.data else none
  | none => none

/-! ## Input validation of `/api/trip/init` (lines 57-87) -/

/-- The request body of `/api/trip/init`; `none` models an absent field or
one of the wrong JS type. The day count is a rational: a JS `number` admits
fractional values, and the range check at line 71 must be judged on them. -/
structure TripInitBody where
  destination : Option String
  places : Option (List String)
  days : Option ℚ
  budget : Option String
deriving Repr, DecidableEq

/-- The list `VALID_BUDGETS` (line 35). -/
def VALID_BUDGETS : List String := ["low", "moderate", "luxury"]

/-- The validation pass (lines 59-77), accumulating error strings in
source order. -/
def validateTripInit (b : TripInitBody) : List String :=
  let destErrs :=
    match b.destination with
    | none => ["Destination is required and must be a non-empty string"]
    | some d =>
      if (trimChars d.data).length = 0 then
        ["Destination is required and must be a non-empty string"]
      else []
  let placeErrs :=
    match b.places with
    | none => ["Places must be a non-empty array"]
    | some ps =>
      if ps.length = 0 then ["Places must be a non-empty array"]
      else if ps.any fun p => (trimChars p.data).length = 0 then
        ["All places must be non-empty strings"]
      else []
  let dayErrs :=
    match b.days with
    | none => ["Days must be a positive number between 1 and 30"]
    | some d =>
      if d ≤ 0 ∨ 30 < d then ["Days must be a positive number between 1 and 30"]
      else []
  let budgetErrs :=
    match b.budget with
    | none => ["Budget must be one of: low, moderate, luxury"]
    | some bu =>
      if VALID_BUDGETS.contains bu then []
      else ["Budget must be one of: low, moderate, luxury"]
  destErrs ++ placeErrs ++ dayErrs ++ budgetErrs

/-- A concrete trip-init request whose day count is the fraction one half:
all other fields are well-formed. -/
def fractionalDaysBody : TripInitBody :=
  ⟨some "Rome", some ["Colosseum"], some (1 / 2), some "moderate"⟩

/-- A response of the init route, seen from the validation gate. -/
inductive InitResponse where
  | validationError (status : Nat) (error : String) (details : List String)
  | later (tag : Nat)
deriving Repr, DecidableEq

/-- Lines 79-87: a non-empty error list returns 400 `Validation failed`
with the details; otherwise the handler continues with `rest`, which stands
for everything from line 89 on (all upstream lookups included). -/
def tripInitPost (b : TripInitBody) (rest : InitResponse) : InitResponse :=
  let errors := validateTripInit b
  if errors.isEmpty then rest
  else .validationError 400 "Validation failed" errors

/-! ## Input validation of `/api/trip/create` (lines 80-115) -/

/-- A selected place of the create request; `none` models an absent field,
and JS falsiness of the empty string is checked explicitly. -/
structure CreatePlace where
  name : Option String
  lat : Option String
  lon : Option String
deriving Repr, DecidableEq

/-- JS falsiness of an optional string field: absent or empty. -/
def falsyStr (s : Option String) : Bool :=
  match s with
  | none => true
  | some v => v.isEmpty

/-- The request body of `/api/trip/create` (selected places are taken to be
a present array, the shape the claims quantify over). -/
structure TripCreateBody where
  destinationName : Option String
  destinationLat : Option String
  destinationLon : Option String
  selectedPlaces : List CreatePlace
  days : Option Int
  budget : Option String
deriving Repr, DecidableEq

/-- The validation pass of the create route (lines 81-105), accumulating
error strings in source order. -/
def validateTripCreate (b : TripCreateBody) : List String :=
  let destErrs :=
    if falsyStr b.destinationName || falsyStr b.destinationLat ||
        falsyStr b.destinationLon then
      ["Destination must include name, latitude, and longitude"]
    else []
  let placeArrErrs :=
    if b.selectedPlaces.length = 0 then ["Selected places cannot be empty"]
    else if 20 < b.selectedPlaces.length then ["Maximum 20 places allowed per trip"]
    else []
  let perPlaceErrs :=
    b.selectedPlaces.enum.filterMap fun ip =>
      if falsyStr ip.2.name || falsyStr ip.2.lat || falsyStr ip.2.lon then
        some ("Place " ++ toString (ip.1 + 1) ++ " (" ++
          (match ip.2.name with
           | some n => if n.isEmpty then "unnamed" else n
           | none => "unnamed") ++ ") missing required coordinates")
      else none
  let dayErrs :=
    match b.days with
    | none => ["Days must be a number between 1 and 30"]
    | some d => if d ≤ 0 ∨ 30 < d then ["Days must be a number between 1 and 30"] else []
  let budgetErrs :=
    match b.budget with
    | none => ["Budget must be one of: low, moderate, luxury"]
    | some bu =>
      if VALID_BUDGETS.contains bu then []
      else ["Budget must be one of: low, moderate, luxury"]
  destErrs ++ placeArrErrs ++ perPlaceErrs ++ dayErrs ++ budgetErrs

/-- A response of the create route, seen from the validation gate; the
`details` of a validation error are the errors joined with `; `
(line 110). -/
inductive CreateResponse where
  | validationError (status : Nat) (error : String) (details : String)
  | later (tag : Nat)
deriving Repr, DecidableEq

/-- Lines 107-115: a non-empty error list returns 400 `Validation failed`;
otherwise the handler continues with `rest`, which stands for everything
from line 117 on (the generator call included). -/
def tripCreatePost (b : TripCreateBody) (rest : CreateResponse) : CreateResponse :=
  let errors := validateTripCreate b
  if errors.isEmpty then rest
  else .validationError 400 "Validation failed" (String.intercalate "; " errors)

/-! ## Theorems -/

/-- A `find?` hit is the first element satisfying the predicate: everything
before it in the list fails the predicate. -/
theorem find?_eq_some_split {α : Type} (p : α → Bool) (l : List α) (a : α)
    (h : l.find? p = some a) :
    p a = true ∧ ∃ pre post, l = pre ++ a :: post ∧ ∀ x ∈ pre, p x = false := by
  induction l with
  | nil => simp [List.find?] at h
  | cons b t ih =>
    by_cases hb : p b = true
    · rw [List.find?_cons_of_pos _ hb] at h
      obtain rfl : b = a := by injection h
      exact ⟨hb, [], t, rfl, by simp⟩
    · rw [List.find?_cons_of_neg _ hb] at h
      obtain ⟨ha, pre, post, rfl, hpre⟩ := ih h
      refine ⟨ha, b :: pre, post, rfl, ?_⟩
      intro x hx
      rcases List.mem_cons.mp hx with rfl | hx
      · exact eq_false_of_ne_true hb
      · exact hpre x hx

/-- C1 counterexample: the init-route matcher does not give strategy order
priority over pool order. Reference `Blue Lagoon Spa`: the first pool
candidate `Lagoon View Spa Hotel` is matched only by the token-overlap
strategy (strategy 4), the second candidate `Blue Lagoon Spa` is an exact
match (strategy 1), yet the matcher picks the first candidate. -/
theorem C1_strategy_priority_counterexample :
    findMatchedPlace "Blue Lagoon Spa"
      [⟨"Lagoon View Spa Hotel", "n1", "10", "20"⟩, ⟨"Blue Lagoon Spa", "n2", "30", "40"⟩] =
      some ⟨"Lagoon View Spa Hotel", "n1", "10", "20"⟩ ∧
    exactMatch (normalize "Blue Lagoon Spa") (normalize "Blue Lagoon Spa") = true ∧
    exactMatch (normalize "Blue Lagoon Spa") (normalize "Lagoon View Spa Hotel") = false ∧
    substringMatch (normalize "Blue Lagoon Spa") (normalize "Lagoon View Spa Hotel") = false ∧
    aliasMatch (normalize "Blue Lagoon Spa") (normalize "Lagoon View Spa Hotel") = false ∧
    tokenOverlapMatch (normalize "Blue Lagoon Spa") (normalize "Lagoon View Spa Hotel") = true := by
  refine ⟨by decide, by decide, by decide, by decide, by decide, by decide⟩

/-- C1 (amended): the init-route matcher walks the candidate pool in order
and, per candidate, tries the strategies in the order exact, substring,
alias, token-overlap; the chosen candidate is the first one in pool order
matched by any strategy, so pool order takes precedence over strategy
order. -/
theorem C1_pool_order_first_match (requestedPlace : String)
    (pool : List NearbyPlace) (c : NearbyPlace)
    (h : findMatchedPlace requestedPlace pool = some c) :
    (exactMatch (normalize requestedPlace) (normalize c.name) ||
     substringMatch (normalize requestedPlace) (normalize c.name) ||
     aliasMatch (normalize requestedPlace) (normalize c.name) ||
     tokenOverlapMatch (normalize requestedPlace) (normalize c.name)) = true ∧
    ∃ pre post, pool = pre ++ c :: post ∧
      ∀ p ∈ pre, matchesPlace requestedPlace p.name = false := by
  have := find?_eq_some_split _ pool c h
  exact ⟨this.1, this.2⟩

/-- C1 witness: the amended theorem applied to the counterexample pool. -/
theorem C1_pool_order_first_match_witness :
    (exactMatch (normalize "Blue Lagoon Spa") (normalize "Lagoon View Spa Hotel") ||
     substringMatch (normalize "Blue Lagoon Spa") (normalize "Lagoon View Spa Hotel") ||
     aliasMatch (normalize "Blue Lagoon Spa") (normalize "Lagoon View Spa Hotel") ||
     tokenOverlapMatch (normalize "Blue Lagoon Spa") (normalize "Lagoon View Spa Hotel")) = true := by
  have h := C1_pool_order_first_match "Blue Lagoon Spa"
    [⟨"Lagoon View Spa Hotel", "n1", "10", "20"⟩, ⟨"Blue Lagoon Spa", "n2", "30", "40"⟩]
    ⟨"Lagoon View Spa Hotel", "n1", "10", "20"⟩ (by decide)
  exact h.1

/-- C2 counterexample: a reference with zero significant tokens makes the
token-overlap strategy match every candidate (the threshold
`ceil(0 * 0.5) = 0` is trivially met), not no candidate. -/
theorem C2_zero_token_counterexample :
    significantWords (normalize "a b") = [] ∧
    tokenOverlapMatch (normalize "a b") (normalize "Xyz Tower") = true := by
  refine ⟨by decide, by decide⟩

/-- C2 (amended): the token-overlap strategy matches a candidate iff at
least `ceil(n * 0.5)` of the reference's `n` significant tokens each appear
(as substring, either direction) in some significant candidate token; when
`n = 0` the threshold is `0` and the strategy matches every candidate. -/
theorem C2_token_overlap_threshold (reference candidate : String) :
    (tokenOverlapMatch reference candidate = true ↔
      ⌈((significantWords reference).length : ℚ) * (1 / 2)⌉ ≤
        ((matchingWords reference candidate).length : ℤ)) ∧
    (significantWords reference = [] →
      tokenOverlapMatch reference candidate = true) := by
  have key : ∀ n m : ℕ, (⌈(n : ℚ) * (1 / 2)⌉ ≤ (m : ℤ)) ↔ (n + 1) / 2 ≤ m := by
    intro n m
    rw [Int.ceil_le]
    push_cast
    rw [mul_one_div, div_le_iff₀ (by norm_num : (0 : ℚ) < 2)]
    constructor
    · intro h
      have h2 : (n : ℚ) ≤ ((m * 2 : ℕ) : ℚ) := by push_cast; linarith
      have h3 : n ≤ m * 2 := by exact_mod_cast h2
      omega
    · intro h
      have h3 : n ≤ m * 2 := by omega
      have h2 : (n : ℚ) ≤ ((m * 2 : ℕ) : ℚ) := by exact_mod_cast h3
      push_cast at h2
      linarith
  constructor
  · rw [key]
    simp [tokenOverlapMatch, ceilHalf, ge_iff_le]
  · intro h
    simp [tokenOverlapMatch, matchingWords, h, ceilHalf]

/-- C7: the reference `visit the Colosseum` matches the candidate
`Colosseo` through the alias table entry for `colosseum`, while neither
normalized string is a substring of the other (exact and substring
strategies both fail). -/
theorem C7_colosseum_alias_match :
    exactMatch (normalize "visit the Colosseum") (normalize "Colosseo") = false ∧
    substringMatch (normalize "visit the Colosseum") (normalize "Colosseo") = false ∧
    jsIncludes (normalize "visit the Colosseum") "colosseum" = true ∧
    ("colosseum", ["colosseo", "amphitheatrum flavium", "anfiteatro flavio"]) ∈
      landmarkMappings ∧
    jsIncludes (normalize "Colosseo") "colosseo" = true ∧
    aliasMatch (normalize "visit the Colosseum") (normalize "Colosseo") = true ∧
    matchesPlace "visit the Colosseum" "Colosseo" = true := by
  refine ⟨by decide, by decide, by decide, by decide, by decide, by decide, by decide⟩

/-- A requested place that matches no pool candidate ends up in the
`invalidPlaces` accumulator of the init matching loop. -/
theorem reconcile_invalid_mem (pool : List NearbyPlace) :
    ∀ (places : List String) (p : String), p ∈ places →
      findMatchedPlace p pool = none →
      p ∈ (reconcile places pool).invalidPlaces := by
  intro places
  induction places with
  | nil => intro p hp; simp at hp
  | cons q rest ih =>
    intro p hp hnone
    rcases List.mem_cons.mp hp with rfl | hp
    · simp [reconcile, hnone]
    · cases hq : findMatchedPlace q pool with
      | some m => simpa [reconcile, hq] using ih p hp hnone
      | none => simpa [reconcile, hq] using Or.inr (ih p hp hnone)

/-- C3 counterexample: when every reference in the batch fails to match,
the init route does not return a partial result — it returns a 404 error
response. -/
theorem C3_all_unmatched_error_counterexample :
    findMatchedPlace "Xyzzy Qwrt" [⟨"Colosseo", "n1", "1", "2"⟩] = none ∧
    initMatchOutcome ["Xyzzy Qwrt"] [⟨"Colosseo", "n1", "1", "2"⟩] =
      .error 404 "None of the requested places were found near the destination" := by
  refine ⟨by decide, by decide⟩

/-- C3 (amended): an unmatched reference is recorded (init: in
`invalidPlaces`; resolve: in `unresolved_places`) and raises no error; the
init route returns the partial result as long as at least one reference
matched, but returns a 404 error when `validatedPlaces` ends up empty,
while the resolve route always returns the full enriched itinerary. -/
theorem C3_partial_results (places : List String) (pool : List NearbyPlace) :
    (∀ p ∈ places, findMatchedPlace p pool = none →
        p ∈ (reconcile places pool).invalidPlaces) ∧
    ((reconcile places pool).validatedPlaces = [] →
        initMatchOutcome places pool =
          .error 404 "None of the requested places were found near the destination") ∧
    ((reconcile places pool).validatedPlaces ≠ [] →
        initMatchOutcome places pool =
          .success (reconcile places pool).validatedPlaces
            (reconcile places pool).invalidPlaces) ∧
    (∀ (itin : TripItinerary) (destinationLat destinationLon : String) (env : ResolveEnv),
        ∀ p ∈ allPlaces itin, resolveOf env p.name = none →
          p.name ∈ (resolveTrip itin destinationLat destinationLon
            env).resolution_info.unresolved_places) := by
  refine ⟨fun p hp hnone => reconcile_invalid_mem pool places p hp hnone, ?_, ?_, ?_⟩
  · intro hempty
    simp [initMatchOutcome, hempty]
  · intro hne
    simp [initMatchOutcome, List.isEmpty_iff, hne]
  · intro itin destinationLat destinationLon env p hp hnone
    simp only [resolveTrip, unresolvedPlaces, List.mem_map]
    exact ⟨p, List.mem_filter.mpr ⟨hp, by simp [hnone]⟩, rfl⟩

/-- C3 witness: the amended theorem at a concrete batch where one
reference matches and one does not. -/
theorem C3_partial_results_witness :
    "Xyzzy Qwrt" ∈
      (reconcile ["Colosseum", "Xyzzy Qwrt"] [⟨"Colosseo", "n1", "1", "2"⟩]).invalidPlaces ∧
    initMatchOutcome ["Colosseum", "Xyzzy Qwrt"] [⟨"Colosseo", "n1", "1", "2"⟩] =
      .success
        (reconcile ["Colosseum", "Xyzzy Qwrt"] [⟨"Colosseo", "n1", "1", "2"⟩]).validatedPlaces
        (reconcile ["Colosseum", "Xyzzy Qwrt"] [⟨"Colosseo", "n1", "1", "2"⟩]).invalidPlaces := by
  have h := C3_partial_results ["Colosseum", "Xyzzy Qwrt"] [⟨"Colosseo", "n1", "1", "2"⟩]
  exact ⟨h.1 "Xyzzy Qwrt" (by decide) (by decide), h.2.2.1 (by decide)⟩

/-- C4: every place of the enriched output carries coordinates — those of
the matched candidate when resolution succeeded, otherwise the
destination's own coordinates as fallback, in which case the place's name
is also recorded in `unresolved_places`; the entry is never dropped. -/
theorem C4_fallback_coordinates (itin : TripItinerary)
    (destinationLat destinationLon : String) (env : ResolveEnv) :
    ∀ d ∈ (resolveTrip itin destinationLat destinationLon env).itinerary,
      ∀ ep ∈ d.places,
        (∃ c, resolveOf env ep.name = some c ∧ ep.lat = c.lat ∧ ep.lon = c.lon) ∨
        (resolveOf env ep.name = none ∧
          ep.lat = destinationLat ∧ ep.lon = destinationLon ∧
          ep.name ∈ (resolveTrip itin destinationLat destinationLon
            env).resolution_info.unresolved_places) := by
  intro d hd ep hep
  simp only [resolveTrip, List.mem_map] at hd
  obtain ⟨d0, hd0, rfl⟩ := hd
  simp only [List.mem_map] at hep
  obtain ⟨p0, hp0, rfl⟩ := hep
  cases hres : resolveOf env p0.name with
  | some c =>
    left
    exact ⟨c, by simp [enrichPlace, hres]⟩
  | none =>
    right
    refine ⟨by simp [enrichPlace, hres], by simp [enrichPlace, hres],
      by simp [enrichPlace, hres], ?_⟩
    have hname : (enrichPlace destinationLat destinationLon env p0).name = p0.name := by
      simp [enrichPlace, hres]
    rw [hname]
    simp only [resolveTrip, unresolvedPlaces, List.mem_map]
    refine ⟨p0, List.mem_filter.mpr ⟨?_, by simp [hres]⟩, rfl⟩
    exact List.mem_flatten.mpr ⟨d0.places, List.mem_map.mpr ⟨d0, hd0, rfl⟩, hp0⟩

/-- C4 witness: one resolvable and one unresolvable place. -/
theorem C4_fallback_coordinates_witness :
    (enrichPlace "41.9" "12.5" ⟨[⟨"Colosseo", "41.89", "12.49", "f1", none, none⟩],
        fun _ => []⟩ ⟨"Nowhere Xyzzy", "morning"⟩).lat = "41.9" ∧
    (enrichPlace "41.9" "12.5" ⟨[⟨"Colosseo", "41.89", "12.49", "f1", none, none⟩],
        fun _ => []⟩ ⟨"Nowhere Xyzzy", "morning"⟩).lon = "12.5" ∧
    "Nowhere Xyzzy" ∈ (resolveTrip ⟨"Rome", 1, "moderate",
        [⟨1, [⟨"Nowhere Xyzzy", "morning"⟩]⟩]⟩ "41.9" "12.5"
        ⟨[⟨"Colosseo", "41.89", "12.49", "f1", none, none⟩],
          fun _ => []⟩).resolution_info.unresolved_places := by
  have h := C4_fallback_coordinates
    ⟨"Rome", 1, "moderate", [⟨1, [⟨"Nowhere Xyzzy", "morning"⟩]⟩]⟩ "41.9" "12.5"
    ⟨[⟨"Colosseo", "41.89", "12.49", "f1", none, none⟩], fun _ => []⟩
    ⟨1, [enrichPlace "41.9" "12.5"
      ⟨[⟨"Colosseo", "41.89", "12.49", "f1", none, none⟩], fun _ => []⟩
      ⟨"Nowhere Xyzzy", "morning"⟩]⟩
    (by simp [resolveTrip])
    (enrichPlace "41.9" "12.5"
      ⟨[⟨"Colosseo", "41.89", "12.49", "f1", none, none⟩], fun _ => []⟩
      ⟨"Nowhere Xyzzy", "morning"⟩)
    (by simp)
  have hnone : resolveOf
      ⟨[⟨"Colosseo", "41.89", "12.49", "f1", none, none⟩], fun _ => []⟩
      (enrichPlace "41.9" "12.5"
        ⟨[⟨"Colosseo", "41.89", "12.49", "f1", none, none⟩], fun _ => []⟩
        ⟨"Nowhere Xyzzy", "morning"⟩).name = none := by rfl
  rcases h with ⟨c, hc, _⟩ | ⟨_, hlat, hlon, hmem⟩
  · rw [hnone] at hc; cases hc
  · have hname : (enrichPlace "41.9" "12.5"
        ⟨[⟨"Colosseo", "41.89", "12.49", "f1", none, none⟩], fun _ => []⟩
        ⟨"Nowhere Xyzzy", "morning"⟩).name = "Nowhere Xyzzy" := by rfl
    exact ⟨hlat, hlon, hname ▸ hmem⟩

/-- Splitting a list by a Boolean test: the matching and the non-matching
entries together account for its whole length. -/
theorem filter_isSome_split (f : String → Option Coordinates) :
    ∀ l : List ItinPlace,
      (l.filter fun p => (f p.name).isSome).length +
        (l.filter fun p => (f p.name).isNone).length = l.length := by
  intro l
  induction l with
  | nil => rfl
  | cons p t ih =>
    cases hf : f p.name <;> simp [List.filter_cons, hf] <;> omega

/-- C8: the resolution statistics add up — `resolved_places` plus the
number of `unresolved_places` equals `total_places`, and `total_places` is
the sum over the input days of their place counts. -/
theorem C8_resolution_count_invariant (itin : TripItinerary)
    (destinationLat destinationLon : String) (env : ResolveEnv) :
    (resolveTrip itin destinationLat destinationLon
        env).resolution_info.resolved_places +
      (resolveTrip itin destinationLat destinationLon
        env).resolution_info.unresolved_places.length =
      (resolveTrip itin destinationLat destinationLon
        env).resolution_info.total_places ∧
    (resolveTrip itin destinationLat destinationLon
        env).resolution_info.total_places =
      (itin.itinerary.map fun day => day.places.length).sum := by
  constructor
  · show resolvedCount itin env + (unresolvedPlaces itin env).length = totalPlaces itin
    have hlen : (unresolvedPlaces itin env).length =
        ((allPlaces itin).filter fun p => (resolveOf env p.name).isNone).length := by
      simp [unresolvedPlaces]
    rw [hlen]
    have hsplit := filter_isSome_split (resolveOf env) (allPlaces itin)
    have htot : totalPlaces itin = (allPlaces itin).length := by
      rw [totalPlaces, allPlaces, List.length_flatten, List.map_map]
      rfl
    rw [resolvedCount, htot]
    exact hsplit
  · rfl

/-- Enrichment keeps the place's name. -/
theorem enrichPlace_name (destinationLat destinationLon : String) (env : ResolveEnv)
    (p : ItinPlace) :
    (enrichPlace destinationLat destinationLon env p).name = p.name := by
  cases hres : resolveOf env p.name <;> simp [enrichPlace, hres]

/-- Enrichment keeps the place's time slot. -/
theorem enrichPlace_time (destinationLat destinationLon : String) (env : ResolveEnv)
    (p : ItinPlace) :
    (enrichPlace destinationLat destinationLon env p).time = p.time := by
  cases hres : resolveOf env p.name <;> simp [enrichPlace, hres]

/-- C9: the resolve operation preserves the input's structure — day count,
day order and numbers, place counts and order, and each place's name and
time slot. -/
theorem C9_structure_preservation (itin : TripItinerary)
    (destinationLat destinationLon : String) (env : ResolveEnv) :
    (resolveTrip itin destinationLat destinationLon env).itinerary.length =
      itin.itinerary.length ∧
    ∀ i (hi : i < itin.itinerary.length)
        (hi2 : i < (resolveTrip itin destinationLat destinationLon env).itinerary.length),
      ((resolveTrip itin destinationLat destinationLon env).itinerary.get ⟨i, hi2⟩).day =
        (itin.itinerary.get ⟨i, hi⟩).day ∧
      ((resolveTrip itin destinationLat destinationLon env).itinerary.get
          ⟨i, hi2⟩).places.length =
        (itin.itinerary.get ⟨i, hi⟩).places.length ∧
      ∀ j (hj : j < (itin.itinerary.get ⟨i, hi⟩).places.length)
          (hj2 : j < ((resolveTrip itin destinationLat destinationLon env).itinerary.get
            ⟨i, hi2⟩).places.length),
        (((resolveTrip itin destinationLat destinationLon env).itinerary.get
            ⟨i, hi2⟩).places.get ⟨j, hj2⟩).name =
          ((itin.itinerary.get ⟨i, hi⟩).places.get ⟨j, hj⟩).name ∧
        (((resolveTrip itin destinationLat destinationLon env).itinerary.get
            ⟨i, hi2⟩).places.get ⟨j, hj2⟩).time =
          ((itin.itinerary.get ⟨i, hi⟩).places.get ⟨j, hj⟩).time := by
  refine ⟨by simp [resolveTrip], ?_⟩
  intro i hi hi2
  refine ⟨?_, ?_, ?_⟩
  · simp [resolveTrip, List.get_eq_getElem, List.getElem_map]
  · simp [resolveTrip, List.get_eq_getElem, List.getElem_map]
  · intro j hj hj2
    constructor
    · simp only [resolveTrip, List.get_eq_getElem, List.getElem_map]
      exact enrichPlace_name destinationLat destinationLon env _
    · simp only [resolveTrip, List.get_eq_getElem, List.getElem_map]
      exact enrichPlace_time destinationLat destinationLon env _

/-- C9 witness: structure preservation at a one-day, one-place itinerary. -/
theorem C9_structure_preservation_witness :
    (((resolveTrip ⟨"Rome", 1, "moderate", [⟨1, [⟨"Colosseum", "morning"⟩]⟩]⟩
          "41.9" "12.5" ⟨[], fun _ => []⟩).itinerary.get
        ⟨0, by simp [resolveTrip]⟩).places.get ⟨0, by simp [resolveTrip]⟩).name =
      "Colosseum" ∧
    (((resolveTrip ⟨"Rome", 1, "moderate", [⟨1, [⟨"Colosseum", "morning"⟩]⟩]⟩
          "41.9" "12.5" ⟨[], fun _ => []⟩).itinerary.get
        ⟨0, by simp [resolveTrip]⟩).places.get ⟨0, by simp [resolveTrip]⟩).time =
      "morning" := by
  have h := C9_structure_preservation
    ⟨"Rome", 1, "moderate", [⟨1, [⟨"Colosseum", "morning"⟩]⟩]⟩ "41.9" "12.5"
    ⟨[], fun _ => []⟩
  have h2 := (h.2 0 (by simp) (by simp [resolveTrip])).2.2 0 (by simp)
    (by simp [resolveTrip])
  exact ⟨h2.1, h2.2⟩

/-- JS `Map.set` semantics: afterwards the key holds exactly the new entry. -/
theorem cacheFind_cacheSet {α : Type} (cache : ResultCache α) (key : String)
    (v : α) (t : Nat) :
    cacheFind (cacheSet cache key v t) key = some ⟨v, t⟩ := by
  induction cache with
  | nil => simp [cacheSet, cacheFind, List.find?]
  | cons e rest ih =>
    by_cases he : (e.1 == key) = true
    · simp [cacheSet, he, cacheFind, List.find?]
    · rw [cacheSet, if_neg he, cacheFind, List.find?_cons_of_neg]
      · exact ih
      · exact he

/-- C5: a `put` followed immediately by a `get` on the same key returns the
stored value; a `get` on an entry stored at least the time-to-live ago is a
miss (lazy expiry on read); a subsequent `put` overwrites the entry under
the key. -/
theorem C5_cache_put_get_ttl {α : Type} (cache : ResultCache α) (key : String)
    (v w : α) (t now duration : Nat) (hdur : 0 < duration) :
    cacheGet (cacheSet cache key v t) key t duration = some v ∧
    (∀ entry, cacheFind cache key = some entry → duration ≤ now - entry.timestamp →
        cacheGet cache key now duration = none) ∧
    cacheFind (cacheSet cache key w now) key = some ⟨w, now⟩ := by
  refine ⟨?_, ?_, cacheFind_cacheSet cache key w now⟩
  · rw [cacheGet, cacheFind_cacheSet]
    simp [Nat.sub_self, hdur]
  · intro entry hfind hstale
    rw [cacheGet, hfind]
    have hlt : ¬(now - entry.timestamp < duration) := by omega
    simp [hlt]

/-- C5 witness: the cache theorem at the resolve route's 30-minute TTL. -/
theorem C5_cache_put_get_ttl_witness :
    cacheGet (cacheSet [("k", (⟨"old", 0⟩ : CacheEntry String))] "k" "v" 100) "k" 100
      CACHE_DURATION_resolve = some "v" ∧
    cacheGet [("k", (⟨"old", 0⟩ : CacheEntry String))] "k" CACHE_DURATION_resolve
      CACHE_DURATION_resolve = none ∧
    cacheFind (cacheSet [("k", (⟨"old", 0⟩ : CacheEntry String))] "k" "w"
      CACHE_DURATION_resolve) "k" = some ⟨"w", CACHE_DURATION_resolve⟩ := by
  have h := @C5_cache_put_get_ttl String [("k", ⟨"old", 0⟩)] "k" "v" "w" 100
    CACHE_DURATION_resolve CACHE_DURATION_resolve (by decide)
  exact ⟨h.1, h.2.1 ⟨"old", 0⟩ (by decide) (by decide), h.2.2⟩

/-- C6 counterexample: the fractional day count `1/2` lies outside 1–30,
yet the validation pass accepts the request (`0.5 <= 0` and `0.5 > 30` are
both false at line 71) and the handler proceeds to the upstream lookup
instead of returning the 400 response. -/
theorem C6_fractional_days_counterexample :
    fractionalDaysBody.days = some (1 / 2 : ℚ) ∧
    (0 : ℚ) < 1 / 2 ∧ (1 / 2 : ℚ) < 1 ∧
    validateTripInit fractionalDaysBody = [] ∧
    tripInitPost fractionalDaysBody (.later 0) = .later 0 := by
  have hrome : ¬((trimChars "Rome".data).length = 0) := by decide
  have hcol : ¬((trimChars "Colosseum".data).length = 0) := by decide
  have hb : VALID_BUDGETS.contains "moderate" = true := by decide
  have hval : validateTripInit fractionalDaysBody = [] := by
    simp [fractionalDaysBody, validateTripInit, hrome, hcol, hb]
    exact ⟨by decide, by norm_num, by decide⟩
  refine ⟨by norm_num [fractionalDaysBody], by norm_num, by norm_num, hval, ?_⟩
  simp [tripInitPost, hval]

/-- C6 (amended): a trip-init request with a missing destination, a day
count that is zero, negative, or above 30, an unknown budget tier, or an
empty place list is rejected with a 400 `Validation failed` response
carrying the details list, whatever the rest of the handler (every upstream
lookup included) would have produced. A fractional day count strictly
between 0 and 1, though outside 1–30, is not rejected. -/
theorem C6_validation_rejects_before_upstream (b : TripInitBody) (rest : InitResponse)
    (h : b.destination = none ∨
        (∃ d, b.days = some d ∧ (d ≤ 0 ∨ 30 < d)) ∨
        (∃ bu, b.budget = some bu ∧ bu ∉ VALID_BUDGETS) ∨
        b.places = some []) :
    validateTripInit b ≠ [] ∧
    tripInitPost b rest =
      .validationError 400 "Validation failed" (validateTripInit b) := by
  have hne : validateTripInit b ≠ [] := by
    rcases h with hd | ⟨d, hd, hr⟩ | ⟨bu, hbu, hm⟩ | hp
    · exact List.ne_nil_of_mem (a := "Destination is required and must be a non-empty string")
        (by simp [validateTripInit, hd])
    · exact List.ne_nil_of_mem (a := "Days must be a positive number between 1 and 30")
        (by simp [validateTripInit, hd, hr])
    · exact List.ne_nil_of_mem (a := "Budget must be one of: low, moderate, luxury")
        (by simp [validateTripInit, hbu, List.elem_eq_mem, hm])
    · exact List.ne_nil_of_mem (a := "Places must be a non-empty array")
        (by simp [validateTripInit, hp])
  refine ⟨hne, ?_⟩
  simp [tripInitPost, List.isEmpty_iff, hne]

/-- C6 witness: a request with a missing destination. -/
theorem C6_validation_rejects_before_upstream_witness :
    validateTripInit ⟨none, some ["Colosseum"], some 3, some "moderate"⟩ ≠ [] ∧
    tripInitPost ⟨none, some ["Colosseum"], some 3, some "moderate"⟩ (.later 0) =
      .validationError 400 "Validation failed"
        (validateTripInit ⟨none, some ["Colosseum"], some 3, some "moderate"⟩) :=
  C6_validation_rejects_before_upstream _ _ (Or.inl rfl)

/-- C10: a trip-create request with more than 20 selected places is
rejected with a 400 `Validation failed` response whose details carry
`Maximum 20 places allowed per trip`, whatever the rest of the handler
(the generator call included) would have produced. -/
theorem C10_max_places_validation (b : TripCreateBody) (rest : CreateResponse)
    (h : 20 < b.selectedPlaces.length) :
    "Maximum 20 places allowed per trip" ∈ validateTripCreate b ∧
    tripCreatePost b rest =
      .validationError 400 "Validation failed"
        (String.intercalate "; " (validateTripCreate b)) := by
  have h0 : ¬(b.selectedPlaces.length = 0) := by omega
  have hmem : "Maximum 20 places allowed per trip" ∈ validateTripCreate b := by
    simp [validateTripCreate, h0, h]
  have hne : validateTripCreate b ≠ [] := by
    intro hnil
    rw [hnil] at hmem
    simp at hmem
  refine ⟨hmem, ?_⟩
  simp [tripCreatePost, List.isEmpty_iff, hne]

/-- C10 witness: a request with 21 selected places. -/
theorem C10_max_places_validation_witness :
    "Maximum 20 places allowed per trip" ∈
      validateTripCreate ⟨some "Rome", some "41.9", some "12.5",
        List.replicate 21 ⟨some "P", some "1", some "2"⟩, some 3, some "moderate"⟩ ∧
    tripCreatePost ⟨some "Rome", some "41.9", some "12.5",
        List.replicate 21 ⟨some "P", some "1", some "2"⟩, some 3, some "moderate"⟩
      (.later 0) =
      .validationError 400 "Validation failed"
        (String.intercalate "; " (validateTripCreate ⟨some "Rome", some "41.9",
          some "12.5", List.replicate 21 ⟨some "P", some "1", some "2"⟩, some 3,
          some "moderate"⟩)) :=
  C10_max_places_validation _ _ (by simp)

end TravelBuddy
